import Mathlib

/-
Verification of the AI_SCOUT mission-orchestration core: a shallow embedding of
the job store (`app/api/job_manager.py`), the mission executor
(`app/core/mission_executor.py`), the recurring scheduler
(`app/core/scheduler.py`) and the batch supervisor (`supervisor.py`),
with theorems settling the behavioural claims about them.

Python dictionaries are embedded as association lists over `String` keys with
first-occurrence lookup and in-place-overwrite insertion, which matches dict
semantics for all duplicate-free dictionaries (every dictionary the code
builds).  JSON-ish values are the inductive `JVal`.
-/

namespace AIScout

/- Association-list model of a Python dict: lookup of the first occurrence. -/
def dGet {α : Type} : List (String × α) → String → Option α
  | [], _ => none
  | (k0, v) :: d, k => if k0 = k then some v else dGet d k

/- `d[k] = v`: overwrite in place if the key exists, else append (dict semantics). -/
def dInsert {α : Type} : List (String × α) → String → α → List (String × α)
  | [], k, v => [(k, v)]
  | (k0, v0) :: d, k, v => if k0 = k then (k, v) :: d else (k0, v0) :: dInsert d k v

/- `d.update(m)` of Python: fold the entries of `m` into `d`, overwriting key-wise. -/
def dUpdate {α : Type} (d m : List (String × α)) : List (String × α) :=
  m.foldl (fun acc p => dInsert acc p.1 p.2) d

def dKeys {α : Type} (d : List (String × α)) : List String :=
  d.map Prod.fst

/- JSON-ish values as stored in `jobs.json`: strings, `null`, lists of file
paths, and nested objects (the `results` sub-dictionary). -/
inductive JVal where
  | str (s : String)
  | null
  | arr (items : List String)
  | obj (fields : List (String × JVal))

abbrev JDict := List (String × JVal)

/- The `data["jobs"]` mapping of `jobs.json`: job id -> job record. -/
abbrev Store := List (String × JDict)

/- The initial `results` object set by `JobManager.create_job`. -/
def initResults : JDict :=
  [("raw_files", JVal.arr []), ("processed_files", JVal.arr []), ("pdf_report", JVal.null)]

/-- `JobManager.create_job` (`app/api/job_manager.py:35-63`).  The freshly
generated identifier `JOB-{uuid4().hex[:8].upper()}` is nondeterministic input
and is therefore a parameter `job_id`, as is the timestamp `now`.  The record
is the dict literal with the default fields, then `**metadata` spread over
them, then `results` set last; it is stored under the fresh key and the fresh
key is returned. -/
def create_job (store : Store) (metadata : JDict) (job_id now : String) : String × Store :=
  let recurrence := (dGet metadata "recurrence").getD JVal.null
  let defaults : JDict :=
    [("id", JVal.str job_id), ("status", JVal.str "PENDING"),
     ("created_at", JVal.str now), ("recurrence", recurrence), ("last_run", JVal.null)]
  let job := dInsert (dUpdate defaults metadata) "results" (JVal.obj initResults)
  (job_id, dInsert store job_id job)

/-- `JobManager.get_job`: dictionary lookup. -/
def get_job (store : Store) (job_id : String) : Option JDict :=
  dGet store job_id

/- The current `results` object of a job record, `{}` when absent:
`job.get("results", {})` with the object fields extracted. -/
def resultsOf (job : JDict) : JDict :=
  match dGet job "results" with
  | some (JVal.obj o) => o
  | _ => []

/- The `if results: current_results.update(results)` block of
`update_job_status`: a truthy (non-empty) patch is merged key-wise into the
current results object, a falsy one (`None` or `{}`) leaves the record
untouched. -/
def withResultsPatch (job1 : JDict) (results : Option JDict) : JDict :=
  match results with
  | some r =>
    if r.isEmpty then job1
    else dInsert job1 "results" (JVal.obj (dUpdate (resultsOf job1) r))
  | none => job1

/- The `if error: ... = error` block: a truthy (non-empty) error string is
stored, a falsy one (`None` or `""`) is not. -/
def withErrorField (job2 : JDict) (error : Option String) : JDict :=
  match error with
  | some e => if e.isEmpty then job2 else dInsert job2 "error" (JVal.str e)
  | none => job2

/- The record transformation of one found-id `update_job_status` call: set
`status`, merge the patch, set the error, bump `updated_at`. -/
def applyStatusUpdate (job : JDict) (status : String) (results : Option JDict)
    (error : Option String) (now : String) : JDict :=
  dInsert
    (withErrorField (withResultsPatch (dInsert job "status" (JVal.str status)) results) error)
    "updated_at" (JVal.str now)

/-- `JobManager.update_job_status` (`app/api/job_manager.py:76-92`).  Sets
`status`; merges a truthy `results` patch key-wise into the current `results`
object (`current_results.update(results)`); sets `error` when truthy (Python
`if error:` skips both `None` and `""`); bumps `updated_at`; saves.  Unknown
id: logged, store unchanged. -/
def update_job_status (store : Store) (job_id status : String)
    (results : Option JDict) (error : Option String) (now : String) : Store :=
  match dGet store job_id with
  | none => store
  | some job => dInsert store job_id (applyStatusUpdate job status results error now)

/- The patch that effectively reaches the merge: the given one when truthy,
`{}` otherwise. -/
def effPatch : Option JDict → JDict
  | some r => if r.isEmpty then [] else r
  | none => []

/-- `JobManager.update_last_run` (`app/api/job_manager.py:94-98`): sets
`last_run` to the given timestamp when the id exists, else does nothing. -/
def update_last_run (store : Store) (job_id last_run : String) : Store :=
  match dGet store job_id with
  | none => store
  | some job => dInsert store job_id (dInsert job "last_run" (JVal.str last_run))

/- Projections used by the theorems. -/
def statusOf (store : Store) (job_id : String) : Option String :=
  match dGet store job_id with
  | some job =>
    match dGet job "status" with
    | some (JVal.str st) => some st
    | _ => none
  | none => none

def errorOf (store : Store) (job_id : String) : Option JVal :=
  (dGet store job_id).bind (fun job => dGet job "error")

/- Python `needle in hay` on strings, via character lists. -/
def listContains (hay needle : List Char) : Bool :=
  match hay with
  | [] => needle.isEmpty
  | _ :: t => needle.isPrefixOf hay || listContains t needle

def containsSub (hay needle : String) : Bool :=
  listContains hay.data needle.data

/- Python `str.lower()`, character-wise (kernel-reducible, unlike
`String.toLower`). -/
def strLower (s : String) : String :=
  String.mk (s.data.map Char.toLower)

/- An NDVI/TIF artifact as the quality gate observes it: its path (product
recognition is the substring test `"NDVI" in fp`), whether the file exists on
disk, whether `rasterio` can open and read it, and band 1 as a pixel list
where `none` embeds NaN (no-data) and `some z` a finite value. -/
structure Artifact where
  path : String
  onDisk : Bool
  readable : Bool
  data : List (Option Int)

def validPixels (a : Artifact) : List Int :=
  a.data.filterMap id

/-- Loop body of `MissionSupervisor.quality_gate` (`supervisor.py:66-102`):
scan the files in order; a missing file fails; non-NDVI files are skipped; an
unreadable NDVI file fails; all-NaN data fails (`np.all` of an empty array is
`True`, matching the `[]` case); no valid pixels fails; all valid pixels zero
fails; otherwise continue.  Reaching the end passes. -/
def gateScan : List Artifact → Bool
  | [] => true
  | a :: rest =>
    if !a.onDisk then false
    else if !(containsSub a.path "NDVI") then gateScan rest
    else if !a.readable then false
    else if a.data.all (fun px => px.isNone) then false
    else if (validPixels a).isEmpty then false
    else if (validPixels a).all (fun z => z == 0) then false
    else gateScan rest

/-- `MissionSupervisor.quality_gate` (`supervisor.py:57-102`): an empty file
list fails immediately, otherwise the scan decides. -/
def quality_gate (file_paths : List Artifact) : Bool :=
  if file_paths.isEmpty then false else gateScan file_paths

/-- `MissionSupervisor.analyze_error` (`supervisor.py:104-117`).  The Python
`error` argument is an optional exception, embedded by its message; `if
error:` is the `none`/`some` split (exception objects are truthy). -/
def analyze_error (error : Option String) (reason : String) : String :=
  if reason = "Quality Gate Failure" then "EXPAND_TIME_WINDOW"
  else
    match error with
    | some err =>
      let s := strLower err
      if containsSub s "timeout" then "REDUCE_CONCURRENCY"
      else if containsSub s "auth" || containsSub s "client_id" then "CHECK_AUTH"
      else "GENERIC_RETRY"
    | none => "GENERIC_RETRY"

/- The spec side of claim C5, stated from the spec's rule table with named
indicator predicates, to be compared with `analyze_error`. -/
inductive Strategy where
  | expandTimeWindow
  | reduceConcurrency
  | checkAuth
  | genericRetry

def qualityGateFailureReason : String := "Quality Gate Failure"

def hasTimeoutIndicator (msg : String) : Bool :=
  containsSub (strLower msg) "timeout"

def hasAuthIndicator (msg : String) : Bool :=
  containsSub (strLower msg) "auth" || containsSub (strLower msg) "client_id"

def classify_spec (error : Option String) (reason : String) : Strategy :=
  if reason = qualityGateFailureReason then Strategy.expandTimeWindow
  else
    match error with
    | some msg =>
      if hasTimeoutIndicator msg then Strategy.reduceConcurrency
      else if hasAuthIndicator msg then Strategy.checkAuth
      else Strategy.genericRetry
    | none => Strategy.genericRetry

def strategyName : Strategy → String
  | Strategy.expandTimeWindow => "EXPAND_TIME_WINDOW"
  | Strategy.reduceConcurrency => "REDUCE_CONCURRENCY"
  | Strategy.checkAuth => "CHECK_AUTH"
  | Strategy.genericRetry => "GENERIC_RETRY"

/- Environment of one supervisor mission: the outcome of the first
`main.main` call and the outcome of the retry call, should one happen.  A
call either raises (message) or returns the artifact list the quality gate
will inspect. -/
structure SupEnv where
  run1 : Except String (List Artifact)
  run2 : Except String (List Artifact)

/-- `MissionSupervisor.self_correct_and_retry` (`supervisor.py:147-187`),
projected to what the claims observe: whether the correction succeeded and
how many further `main.main` invocations it made.  `CHECK_AUTH` aborts before
the retry; any other strategy retries once, failing on a raise or a gate
failure. -/
def self_correct_and_retry (run2 : Except String (List Artifact))
    (error : Option String) (reason : String) : Bool × Nat :=
  let strategy := analyze_error error reason
  if strategy = "CHECK_AUTH" then (false, 0)
  else
    match run2 with
    | Except.error _ => (false, 1)
    | Except.ok files => (quality_gate files, 1)

/- Outcome of `execute_mission` for one mission: number of `main.main`
invocations, increment to `completed_missions`, ids appended to
`failed_missions`. -/
structure MissionOutcome where
  calls : Nat
  completedDelta : Nat
  failedIds : List Nat

/-- `MissionSupervisor.execute_mission` (`supervisor.py:189-218`): run once;
on gate pass count completed; on gate failure self-correct with reason
"Quality Gate Failure"; on a raise self-correct with the exception; a failed
correction appends the mission id to `failed_missions`. -/
def execute_mission (env : SupEnv) (mission_id : Nat) : MissionOutcome :=
  match env.run1 with
  | Except.ok files =>
    if quality_gate files then ⟨1, 1, []⟩
    else
      let r := self_correct_and_retry env.run2 none "Quality Gate Failure"
      if r.1 then ⟨1 + r.2, 1, []⟩ else ⟨1 + r.2, 0, [mission_id]⟩
  | Except.error e =>
    let r := self_correct_and_retry env.run2 (some e) ""
    if r.1 then ⟨1 + r.2, 1, []⟩ else ⟨1 + r.2, 0, [mission_id]⟩

/- The `last_run` field a recurring job presents to the scheduler: absent
(`None`), present but not ISO-parseable (`datetime.fromisoformat` raises
`ValueError`), or a parsed timestamp in seconds. -/
inductive LastRun where
  | absent
  | unparseable
  | parsed (t : Int)

/-- The due-check of `MissionScheduler.process_recurring_job`
(`app/core/scheduler.py:39-57`): `should_run` is true when `last_run` is
absent or unparseable, or when `utcnow() - last_run > timedelta(hours=24)` —
a strict comparison, in seconds here. -/
def should_run (now : Int) (lr : LastRun) : Bool :=
  match lr with
  | LastRun.absent => true
  | LastRun.unparseable => true
  | LastRun.parsed t => decide (now - t > 24 * 3600)

/- One `jm.update_job_status(job_id, status, results, error)` call recorded
by the mission executor. -/
structure StatusCall where
  status : String
  results : Option JDict
  error : Option String

/- Collaborator outcomes for one `process_mission_task` run.  Each field is
the behaviour of one pipeline step's collaborator: raise (message) or return.
`chronos` stands for the whole change-detection block (glob, mtime sort,
`calculate_change`), whose normal outcome is the list of extra processed
files appended (empty when no previous NDVI or no change map). -/
structure MissionEnv where
  download : Except String (List String)
  weather : Except String (List String)
  processed : Except String (List String)
  chronos : Except String (List String)
  stacReg : Except String Unit
  report : Except String Unit

/- Message of the `AttributeError` raised by `job.get(...)` when
`jm.get_job(job_id)` returned `None` (quotes elided). -/
def noneGetMsg : String := "NoneType object has no attribute get"

/- Python truthiness of the `parent_job_id` field (`if parent_id:`). -/
def parentTruthy (job : JDict) : Bool :=
  match dGet job "parent_job_id" with
  | some (JVal.str pid) => !pid.isEmpty
  | some JVal.null => false
  | some (JVal.arr l) => !l.isEmpty
  | some (JVal.obj o) => !o.isEmpty
  | none => false

/-- The body of `process_mission_task` (`app/core/mission_executor.py:22-131`)
after the initial `RUNNING` update, as the sequence of further
`update_job_status` calls it issues.  Each branch mirrors the source: a raise
from a step without its own `try` (download, analytics, change detection, the
report generator) falls through to the outer `except` and issues a single
`FAILED` update; the weather and catalog steps absorb their failures; the two
empty-result checks issue their fixed `FAILED` messages; otherwise the single
`COMPLETED` update carries the results object. -/
def missionBodyCalls (job : Option JDict) (sensor : String) (env : MissionEnv)
    (reportPath : String) : List StatusCall :=
  match (if sensor = "OPTICAL" then env.download else Except.ok []) with
  | Except.error e => [⟨"FAILED", none, some e⟩]
  | Except.ok raw0 =>
    let raw := match env.weather with
      | Except.ok w => raw0 ++ w
      | Except.error _ => raw0
    if raw.isEmpty then
      [⟨"FAILED", none, some "No data downloaded (or sensor not supported for processing)"⟩]
    else
      match env.processed with
      | Except.error e => [⟨"FAILED", none, some e⟩]
      | Except.ok p0 =>
        if p0.isEmpty then
          [⟨"FAILED", none, some "No data processed (Analytics produced no output)"⟩]
        else
          match job with
          | none => [⟨"FAILED", none, some noneGetMsg⟩]
          | some j =>
            match (if parentTruthy j then env.chronos else Except.ok []) with
            | Except.error e => [⟨"FAILED", none, some e⟩]
            | Except.ok extra =>
              let p := p0 ++ extra
              match env.report with
              | Except.error e => [⟨"FAILED", none, some e⟩]
              | Except.ok _ =>
                [⟨"COMPLETED",
                  some [("raw_files", JVal.arr raw), ("processed_files", JVal.arr p),
                        ("pdf_report", JVal.str reportPath)],
                  none⟩]

/- `os.path.join("results", f"Evidence_Pack_{job_id}.pdf")`. -/
def reportPathFor (job_id : String) : String :=
  "results/Evidence_Pack_" ++ job_id ++ ".pdf"

/- All `update_job_status` calls of one `process_mission_task` run: `RUNNING`
first, then the body's calls. -/
def missionCalls (job : Option JDict) (sensor : String) (env : MissionEnv)
    (reportPath : String) : List StatusCall :=
  ⟨"RUNNING", none, none⟩ :: missionBodyCalls job sensor env reportPath

/-- `process_mission_task` (`app/core/mission_executor.py:15-131`) acting on
the job store: mark the job `RUNNING`, then apply the body's status updates
in order.  `jm.get_job(job_id)` is read from the store after the `RUNNING`
update, exactly as the source does.  Timestamps of the updates are collapsed
to one `now` parameter (no claim depends on them). -/
def process_mission_task (store : Store) (job_id sensor : String) (env : MissionEnv)
    (now : String) : Store :=
  let store1 := update_job_status store job_id "RUNNING" none none now
  (missionBodyCalls (get_job store1 job_id) sensor env (reportPathFor job_id)).foldl
    (fun s c => update_job_status s job_id c.status c.results c.error now) store1

/- A Job Store operation, for quantifying over operation sequences (claim C2). -/
inductive StoreOp where
  | createJ (metadata : JDict) (job_id now : String)
  | updateStat (job_id status : String) (results : Option JDict)
      (error : Option String) (now : String)
  | updateLast (job_id last_run : String)

def applyOp (s : Store) : StoreOp → Store
  | StoreOp.createJ metadata job_id now => (create_job s metadata job_id now).2
  | StoreOp.updateStat job_id status results error now =>
      update_job_status s job_id status results error now
  | StoreOp.updateLast job_id last_run => update_last_run s job_id last_run

/- The status of one job observed after each successive operation. -/
def statusTrace (s : Store) (job_id : String) : List StoreOp → List (Option String)
  | [] => []
  | op :: ops =>
    let s1 := applyOp s op
    statusOf s1 job_id :: statusTrace s1 job_id ops

/- Statuses at the instants the job exists. -/
def jobStatusSeq (s : Store) (job_id : String) (ops : List StoreOp) : List String :=
  (statusTrace s job_id ops).filterMap id

/- The transition relation of the spec: stay put, `PENDING → RUNNING`, or
`RUNNING → {COMPLETED, FAILED}`. -/
def specAllowed (a b : String) : Bool :=
  a == b || (a == "PENDING" && b == "RUNNING")
    || (a == "RUNNING" && (b == "COMPLETED" || b == "FAILED"))

def protocolOkFrom : String → List String → Bool
  | _, [] => true
  | a, b :: rest => specAllowed a b && protocolOkFrom b rest

/- A status sequence follows the spec's lifecycle protocol. -/
def protocolOk : List String → Bool
  | [] => true
  | a :: rest => protocolOkFrom a rest

/- Phases of one supervisor mission task relative to `execute_mission`
(claim C9): not yet entered, in flight, returned. -/
inductive TaskPhase where
  | waiting
  | running
  | done
  deriving DecidableEq

def runningCount (s : List TaskPhase) : Nat :=
  s.countP (fun t => t == TaskPhase.running)

/- Interleaving semantics of `run_grid_mission`'s semaphore
(`supervisor.py:239-253`): a waiting task may enter `execute_mission` only
when fewer than `K` are in flight (`asyncio.Semaphore(K)` acquire); an
in-flight task may return (release). -/
inductive BatchStep (K : Nat) : List TaskPhase → List TaskPhase → Prop where
  | start (s : List TaskPhase) (i : Nat) (hw : s.get? i = some TaskPhase.waiting)
      (hc : runningCount s < K) : BatchStep K s (s.set i TaskPhase.running)
  | finish (s : List TaskPhase) (i : Nat) (hr : s.get? i = some TaskPhase.running) :
      BatchStep K s (s.set i TaskPhase.done)

/- Reachability from the initial configuration of `N` queued missions. -/
def BatchReachable (K N : Nat) (s : List TaskPhase) : Prop :=
  Relation.ReflTransGen (BatchStep K) (List.replicate N TaskPhase.waiting) s

/- No step applies: the `asyncio.gather` has finished. -/
def BatchTerminal (K : Nat) (s : List TaskPhase) : Prop :=
  ∀ t, ¬ BatchStep K s t

/- The code's fail condition for one artifact in the gate scan: a missing
file, or an NDVI product that is unreadable, all no-data, without valid
pixels, or with all valid pixels zero. -/
def badArtifact (a : Artifact) : Bool :=
  !a.onDisk ||
    (containsSub a.path "NDVI" &&
      (!a.readable || a.data.all (fun px => px.isNone) || (validPixels a).isEmpty
        || (validPixels a).all (fun z => z == 0)))

/- The spec's "all valid pixels a single degenerate constant value": some
valid pixels exist and they are all equal (to the first one). -/
def degenerateConstValid (a : Artifact) : Bool :=
  !(validPixels a).isEmpty &&
    (validPixels a).all (fun z => z == (validPixels a).headD 0)

/- An NDVI artifact whose valid pixels are the nonzero constant 5. -/
def constArtifact : Artifact :=
  ⟨"scene_NDVI_analysis.tif", true, true, [some 5, some 5]⟩

theorem dGet_dInsert_self {α : Type} (d : List (String × α)) (k : String) (v : α) :
    dGet (dInsert d k v) k = some v := by
  induction d with
  | nil => simp [dGet, dInsert]
  | cons p d ih =>
    obtain ⟨k0, v0⟩ := p
    by_cases h : k0 = k
    · simp [dGet, dInsert, h]
    · simp [dGet, dInsert, h, ih]

theorem dGet_dInsert_ne {α : Type} (d : List (String × α)) (k k' : String) (v : α)
    (h : k' ≠ k) : dGet (dInsert d k v) k' = dGet d k' := by
  have h' : ¬ (k = k') := fun e => h e.symm
  induction d with
  | nil => simp [dGet, dInsert, h']
  | cons p d ih =>
    obtain ⟨k0, v0⟩ := p
    simp only [dInsert]
    by_cases h0 : k0 = k
    · have hk0 : ¬ (k0 = k') := fun e => h' (h0.symm.trans e)
      rw [if_pos h0]
      show (if k = k' then some v else dGet d k') = (if k0 = k' then some v0 else dGet d k')
      rw [if_neg h', if_neg hk0]
    · rw [if_neg h0]
      show (if k0 = k' then some v0 else dGet (dInsert d k v) k')
        = (if k0 = k' then some v0 else dGet d k')
      rw [ih]

theorem dGet_eq_none_iff {α : Type} (d : List (String × α)) (k : String) :
    dGet d k = none ↔ k ∉ dKeys d := by
  induction d with
  | nil => simp [dGet, dKeys]
  | cons p d ih =>
    obtain ⟨k0, v0⟩ := p
    by_cases h : k0 = k
    · simp [dGet, dKeys, h]
    · simp only [dGet, dKeys, List.map_cons, List.mem_cons, if_neg h]
      rw [ih]
      simp only [dKeys]
      constructor
      · intro hn hor
        rcases hor with hor | hor
        · exact h hor.symm
        · exact hn hor
      · intro hn hm
        exact hn (Or.inr hm)

theorem dUpdate_nil {α : Type} (d : List (String × α)) : dUpdate d [] = d := rfl

theorem dUpdate_cons {α : Type} (d : List (String × α)) (k : String) (v : α)
    (m : List (String × α)) :
    dUpdate d ((k, v) :: m) = dUpdate (dInsert d k v) m := rfl

theorem dGet_dUpdate_not_mem {α : Type} (d m : List (String × α)) (k : String)
    (h : k ∉ dKeys m) : dGet (dUpdate d m) k = dGet d k := by
  induction m generalizing d with
  | nil => rfl
  | cons p m ih =>
    obtain ⟨k0, v0⟩ := p
    simp only [dKeys, List.map_cons, List.mem_cons] at h
    push_neg at h
    rw [dUpdate_cons, ih _ h.2, dGet_dInsert_ne _ _ _ _ h.1]

theorem dGet_dUpdate_of_get {α : Type} (d m : List (String × α)) (k : String) (v : α)
    (hnd : (dKeys m).Nodup) (h : dGet m k = some v) :
    dGet (dUpdate d m) k = some v := by
  induction m generalizing d with
  | nil => simp [dGet] at h
  | cons p m ih =>
    obtain ⟨k0, v0⟩ := p
    simp only [dKeys, List.map_cons, List.nodup_cons] at hnd
    by_cases h0 : k0 = k
    · subst h0
      have hv : v0 = v := by simpa [dGet] using h
      subst hv
      rw [dUpdate_cons, dGet_dUpdate_not_mem _ _ _ hnd.1, dGet_dInsert_self]
    · simp only [dGet, if_neg h0] at h
      rw [dUpdate_cons, ih _ hnd.2 h]

theorem dGet_dUpdate {α : Type} (d m : List (String × α)) (k : String)
    (hnd : (dKeys m).Nodup) :
    dGet (dUpdate d m) k =
      match dGet m k with
      | some v => some v
      | none => dGet d k := by
  cases h : dGet m k with
  | some v => exact dGet_dUpdate_of_get d m k v hnd h
  | none => exact dGet_dUpdate_not_mem d m k ((dGet_eq_none_iff m k).mp h)

theorem gateScan_cons (a : Artifact) (rest : List Artifact) :
    gateScan (a :: rest) = (!badArtifact a && gateScan rest) := by
  simp only [gateScan, badArtifact]
  cases h1 : a.onDisk <;> cases h2 : containsSub a.path "NDVI" <;>
    cases h3 : a.readable <;> cases h4 : a.data.all (fun px => px.isNone) <;>
    cases h5 : (validPixels a).isEmpty <;>
    cases h6 : (validPixels a).all (fun z => z == 0) <;>
    simp [h1, h2, h3, h4, h5, h6]

theorem gateScan_eq_true_iff (l : List Artifact) :
    gateScan l = true ↔ ∀ a ∈ l, badArtifact a = false := by
  induction l with
  | nil => simp [gateScan]
  | cons a rest ih =>
    rw [gateScan_cons]
    simp [ih, Bool.not_eq_true']

/- Concrete inputs used by counterexamples and witnesses. -/
def cexStore7 : Store := (create_job [] [] "JOB-A" "t0").2

def mdC10 : JDict := [("id", JVal.str "X"), ("status", JVal.str "RUNNING")]

def s8store : Store := (create_job [] [] "JOB-8" "t0").2

def j8 : JDict :=
  [("id", JVal.str "JOB-8"), ("status", JVal.str "PENDING"),
   ("created_at", JVal.str "t0"), ("recurrence", JVal.null),
   ("last_run", JVal.null), ("results", JVal.obj initResults)]

def c2ops : List StoreOp :=
  [StoreOp.createJ [] "JOB-2" "t0",
   StoreOp.updateStat "JOB-2" "RUNNING" none none "t1",
   StoreOp.updateStat "JOB-2" "COMPLETED" none none "t2",
   StoreOp.updateStat "JOB-2" "PENDING" none none "t3"]

def s1store : Store := (create_job [] [] "JOB-1" "t0").2

def j1c : JDict :=
  [("id", JVal.str "JOB-1"), ("status", JVal.str "PENDING"),
   ("created_at", JVal.str "t0"), ("recurrence", JVal.null),
   ("last_run", JVal.null), ("results", JVal.obj initResults)]

def env1 : MissionEnv :=
  ⟨Except.ok ["raw.tif"], Except.ok [], Except.ok ["x_NDVI_analysis.tif"],
   Except.ok [], Except.ok (), Except.error "pdf generation failed"⟩

theorem dGet_withResultsPatch_ne (j : JDict) (r : Option JDict) (k : String)
    (hk : k ≠ "results") : dGet (withResultsPatch j r) k = dGet j k := by
  cases r with
  | none => rfl
  | some rr =>
    cases rr with
    | nil => rfl
    | cons a t =>
      show dGet (dInsert j "results" _) k = dGet j k
      exact dGet_dInsert_ne _ _ _ _ hk

theorem dGet_withErrorField_ne (j : JDict) (e : Option String) (k : String)
    (hk : k ≠ "error") : dGet (withErrorField j e) k = dGet j k := by
  cases e with
  | none => rfl
  | some s =>
    by_cases hs : s.isEmpty
    · simp [withErrorField, hs]
    · simp only [withErrorField, if_neg hs]
      exact dGet_dInsert_ne _ _ _ _ hk

theorem dGet_withErrorField_set (j : JDict) (s : String) (hs : s.isEmpty = false) :
    dGet (withErrorField j (some s)) "error" = some (JVal.str s) := by
  simp only [withErrorField, hs, Bool.false_eq_true, if_false]
  exact dGet_dInsert_self _ _ _

theorem resultsOf_withResultsPatch (j : JDict) (r : Option JDict) :
    resultsOf (withResultsPatch j r) = dUpdate (resultsOf j) (effPatch r) := by
  cases r with
  | none => simp [withResultsPatch, effPatch, dUpdate_nil]
  | some rr =>
    cases rr with
    | nil => simp [withResultsPatch, effPatch, dUpdate_nil, List.isEmpty_nil]
    | cons a t =>
      show resultsOf (dInsert j "results" (JVal.obj (dUpdate (resultsOf j) (a :: t))))
        = dUpdate (resultsOf j) (effPatch (some (a :: t)))
      rw [resultsOf, dGet_dInsert_self]
      rfl

theorem dGet_applyStatusUpdate_status (job : JDict) (st : String) (r : Option JDict)
    (e : Option String) (n : String) :
    dGet (applyStatusUpdate job st r e n) "status" = some (JVal.str st) := by
  rw [applyStatusUpdate, dGet_dInsert_ne _ _ _ _ (by decide),
    dGet_withErrorField_ne _ _ _ (by decide), dGet_withResultsPatch_ne _ _ _ (by decide),
    dGet_dInsert_self]

theorem dGet_applyStatusUpdate_updated (job : JDict) (st : String) (r : Option JDict)
    (e : Option String) (n : String) :
    dGet (applyStatusUpdate job st r e n) "updated_at" = some (JVal.str n) := by
  rw [applyStatusUpdate, dGet_dInsert_self]

theorem dGet_applyStatusUpdate_error (job : JDict) (st : String) (r : Option JDict)
    (s n : String) (hs : s.isEmpty = false) :
    dGet (applyStatusUpdate job st r (some s) n) "error" = some (JVal.str s) := by
  rw [applyStatusUpdate, dGet_dInsert_ne _ _ _ _ (by decide), dGet_withErrorField_set _ _ hs]

theorem dGet_applyStatusUpdate_frame (job : JDict) (st : String) (r : Option JDict)
    (e : Option String) (n k : String) (h1 : k ≠ "status") (h2 : k ≠ "results")
    (h3 : k ≠ "error") (h4 : k ≠ "updated_at") :
    dGet (applyStatusUpdate job st r e n) k = dGet job k := by
  rw [applyStatusUpdate, dGet_dInsert_ne _ _ _ _ h4, dGet_withErrorField_ne _ _ _ h3,
    dGet_withResultsPatch_ne _ _ _ h2, dGet_dInsert_ne _ _ _ _ h1]

theorem resultsOf_applyStatusUpdate (job : JDict) (st : String) (r : Option JDict)
    (e : Option String) (n : String) :
    resultsOf (applyStatusUpdate job st r e n)
      = dUpdate (resultsOf job) (effPatch r) := by
  have h1 : dGet (applyStatusUpdate job st r e n) "results"
      = dGet (withResultsPatch (dInsert job "status" (JVal.str st)) r) "results" := by
    rw [applyStatusUpdate, dGet_dInsert_ne _ _ _ _ (by decide),
      dGet_withErrorField_ne _ _ _ (by decide)]
  have h2 : resultsOf (dInsert job "status" (JVal.str st)) = resultsOf job := by
    rw [resultsOf, resultsOf, dGet_dInsert_ne _ _ _ _ (by decide)]
  calc resultsOf (applyStatusUpdate job st r e n)
      = resultsOf (withResultsPatch (dInsert job "status" (JVal.str st)) r) := by
        rw [resultsOf, resultsOf, h1]
    _ = dUpdate (resultsOf (dInsert job "status" (JVal.str st))) (effPatch r) :=
        resultsOf_withResultsPatch _ _
    _ = dUpdate (resultsOf job) (effPatch r) := by rw [h2]

theorem update_job_status_found (store : Store) (job_id st : String)
    (r : Option JDict) (e : Option String) (n : String) (job : JDict)
    (h : dGet store job_id = some job) :
    update_job_status store job_id st r e n
      = dInsert store job_id (applyStatusUpdate job st r e n) := by
  rw [update_job_status, h]

theorem update_job_status_notFound (store : Store) (job_id st : String)
    (r : Option JDict) (e : Option String) (n : String)
    (h : dGet store job_id = none) :
    update_job_status store job_id st r e n = store := by
  rw [update_job_status, h]

/-- C3, counterexample: a recurring job whose `last_run` is exactly 24 hours
old satisfies the claim's due condition `now - last_run >= 24h`, yet
`should_run` is false — the code compares with a strict `>`. -/
theorem C3_counterexample :
    ((24 * 3600 : Int) - 0 ≥ 24 * 3600) ∧
    should_run (24 * 3600) (LastRun.parsed 0) = false := by
  constructor
  · decide
  · decide

/-- C3 (amended): the DAILY due-check holds exactly when `last_run` is absent
(or unparseable) or strictly more than 24 hours old; `last_run = now - 23h`
is not due, `now - 25h` is due, and `now - 24h` exactly is **not** due. -/
theorem C3_due_check :
    (∀ (now : Int) (lr : LastRun),
      should_run now lr = true ↔
        (lr = LastRun.absent ∨ lr = LastRun.unparseable ∨
          ∃ t, lr = LastRun.parsed t ∧ now - t > 24 * 3600))
    ∧ should_run 0 LastRun.absent = true
    ∧ should_run (25 * 3600) (LastRun.parsed 0) = true
    ∧ should_run (23 * 3600) (LastRun.parsed 0) = false := by
  refine ⟨?_, by decide, by decide, by decide⟩
  intro now lr
  cases lr with
  | absent => simp [should_run]
  | unparseable => simp [should_run]
  | parsed t => simp [should_run]

/-- C5: failure classification follows the fixed rule table exactly — the
quality-gate reason yields `ExpandTimeWindow`; otherwise a timeout indicator
in the message yields `ReduceConcurrency`; otherwise an authentication
indicator (`auth` or `client_id`) yields `CheckAuth`; otherwise
`GenericRetry`.  Stated as: the code's `analyze_error` agrees with the
strategy table `classify_spec` transcribed from the spec. -/
theorem C5_classification :
    ∀ (error : Option String) (reason : String),
      analyze_error error reason = strategyName (classify_spec error reason) := by
  intro error reason
  simp only [analyze_error, classify_spec, qualityGateFailureReason,
    hasTimeoutIndicator, hasAuthIndicator]
  by_cases h : reason = "Quality Gate Failure"
  · simp [h, strategyName]
  · simp only [if_neg h]
    cases error with
    | none => rfl
    | some msg =>
      by_cases ht : containsSub (strLower msg) "timeout"
      · simp [ht, strategyName]
      · by_cases ha : (containsSub (strLower msg) "auth" || containsSub (strLower msg) "client_id") = true
        · simp [ht, ha, strategyName]
        · simp [ht, ha, strategyName]

/-- C6: a mission whose initial crash is classified `CHECK_AUTH` is not
retried: `main.main` is invoked exactly once, the mission id lands in
`failed_missions`, and `completed_missions` is not incremented. -/
theorem C6_auth_no_retry :
    ∀ (env : SupEnv) (mission_id : Nat) (e : String),
      env.run1 = Except.error e →
      analyze_error (some e) "" = "CHECK_AUTH" →
      (execute_mission env mission_id).calls = 1 ∧
      (execute_mission env mission_id).completedDelta = 0 ∧
      (execute_mission env mission_id).failedIds = [mission_id] := by
  intro env mission_id e h1 hs
  simp [execute_mission, h1, self_correct_and_retry, hs]

/-- C6, witness: an authentication-indicator crash on the first run. -/
theorem C6_auth_no_retry_witness :
    (SupEnv.mk (Except.error "auth failed") (Except.ok [])).run1
        = Except.error "auth failed" ∧
    analyze_error (some "auth failed") "" = "CHECK_AUTH" ∧
    ((execute_mission (SupEnv.mk (Except.error "auth failed") (Except.ok [])) 3).calls = 1 ∧
     (execute_mission (SupEnv.mk (Except.error "auth failed") (Except.ok [])) 3).completedDelta = 0 ∧
     (execute_mission (SupEnv.mk (Except.error "auth failed") (Except.ok [])) 3).failedIds = [3]) :=
  ⟨rfl, by decide, C6_auth_no_retry _ 3 "auth failed" rfl (by decide)⟩

/-- C4, counterexample: an NDVI artifact whose valid pixels are the single
degenerate constant 5 must fail the gate by the claim, yet `quality_gate`
passes it — the code only rejects the all-zero constant. -/
theorem C4_counterexample :
    containsSub constArtifact.path "NDVI" = true ∧
    degenerateConstValid constArtifact = true ∧
    quality_gate [constArtifact] = true := by
  refine ⟨by decide, by decide, by decide⟩

/-- C4 (amended): the quality gate passes iff the artifact list is non-empty
and no artifact is bad, where bad means: its file is missing, or it is an
NDVI product that is unreadable, all no-data, without valid pixels, or with
all valid pixels **zero** (a nonzero constant passes).  Equivalently the gate
fails exactly on an empty list or on the first bad artifact. -/
theorem C4_quality_gate :
    ∀ l : List Artifact,
      quality_gate l = true ↔ l ≠ [] ∧ ∀ a ∈ l, badArtifact a = false := by
  intro l
  cases l with
  | nil => simp [quality_gate]
  | cons a rest =>
    have h : quality_gate (a :: rest) = gateScan (a :: rest) := by
      simp [quality_gate]
    rw [h, gateScan_eq_true_iff]
    simp

/-- C7, counterexample: `create_job` performs no collision check — when the
freshly generated identifier happens to equal an existing job id (here
`JOB-A`), the returned id is **not** distinct from every id already present
in the store, contradicting the claim (and the colliding record silently
overwrites the old one). -/
theorem C7_counterexample :
    (dGet cexStore7 "JOB-A").isSome = true ∧
    (create_job cexStore7 [("sensor", JVal.str "OPTICAL")] "JOB-A" "t1").1 = "JOB-A" :=
  ⟨rfl, rfl⟩

/-- C7 (amended): `get(returned id)` always resolves immediately after
`create_job`; the returned id is distinct from every id already present
provided the generated identifier was not already in the store — no
collision check exists. -/
theorem C7_create_resolvable :
    ∀ (store : Store) (metadata : JDict) (gid now : String),
      (create_job store metadata gid now).1 = gid ∧
      (dGet (create_job store metadata gid now).2 gid).isSome = true ∧
      (dGet store gid = none →
        ∀ k, (dGet store k).isSome = true → (create_job store metadata gid now).1 ≠ k) := by
  intro store metadata gid now
  refine ⟨rfl, ?_, ?_⟩
  · show (dGet (dInsert store gid _) gid).isSome = true
    rw [dGet_dInsert_self]
    rfl
  · intro h k hk heq
    have hgk : gid = k := heq
    subst hgk
    rw [h] at hk
    simp at hk

/-- C7, witness: creating `JOB-B` in a store holding only `JOB-A`. -/
theorem C7_witness :
    dGet cexStore7 "JOB-B" = none ∧
    ((create_job cexStore7 [] "JOB-B" "t1").1 = "JOB-B" ∧
     (dGet (create_job cexStore7 [] "JOB-B" "t1").2 "JOB-B").isSome = true ∧
     (dGet cexStore7 "JOB-B" = none →
       ∀ k, (dGet cexStore7 k).isSome = true →
         (create_job cexStore7 [] "JOB-B" "t1").1 ≠ k)) :=
  ⟨rfl, C7_create_resolvable cexStore7 [] "JOB-B" "t1"⟩

/-- C10: because `**metadata` is spread after the default fields, a metadata
entry for `id`, `status`, `created_at`, `recurrence` or `last_run` overrides
the freshly generated default in the persisted record (which is stored under
the returned fresh key), while `results` — set after the spread — always
gets its empty initial value. -/
theorem C10_metadata_overrides :
    ∀ (store : Store) (metadata : JDict) (job_id now : String),
      (dKeys metadata).Nodup →
      ∃ job, dGet (create_job store metadata job_id now).2 job_id = some job ∧
        (∀ v, dGet metadata "id" = some v → dGet job "id" = some v) ∧
        (∀ v, dGet metadata "status" = some v → dGet job "status" = some v) ∧
        (∀ v, dGet metadata "created_at" = some v → dGet job "created_at" = some v) ∧
        (∀ v, dGet metadata "recurrence" = some v → dGet job "recurrence" = some v) ∧
        (∀ v, dGet metadata "last_run" = some v → dGet job "last_run" = some v) ∧
        dGet job "results" = some (JVal.obj initResults) := by
  intro store metadata job_id now hnd
  refine ⟨_, dGet_dInsert_self _ _ _, ?_, ?_, ?_, ?_, ?_, ?_⟩
  · intro v hv
    rw [dGet_dInsert_ne _ _ _ _ (by decide)]
    exact dGet_dUpdate_of_get _ _ _ _ hnd hv
  · intro v hv
    rw [dGet_dInsert_ne _ _ _ _ (by decide)]
    exact dGet_dUpdate_of_get _ _ _ _ hnd hv
  · intro v hv
    rw [dGet_dInsert_ne _ _ _ _ (by decide)]
    exact dGet_dUpdate_of_get _ _ _ _ hnd hv
  · intro v hv
    rw [dGet_dInsert_ne _ _ _ _ (by decide)]
    exact dGet_dUpdate_of_get _ _ _ _ hnd hv
  · intro v hv
    rw [dGet_dInsert_ne _ _ _ _ (by decide)]
    exact dGet_dUpdate_of_get _ _ _ _ hnd hv
  · exact dGet_dInsert_self _ _ _

/-- C10, witness: metadata carrying `id = "X"` and `status = "RUNNING"`. -/
theorem C10_witness :
    (dKeys mdC10).Nodup ∧
    (∃ job, dGet (create_job [] mdC10 "JOB-F" "t0").2 "JOB-F" = some job ∧
      (∀ v, dGet mdC10 "id" = some v → dGet job "id" = some v) ∧
      (∀ v, dGet mdC10 "status" = some v → dGet job "status" = some v) ∧
      (∀ v, dGet mdC10 "created_at" = some v → dGet job "created_at" = some v) ∧
      (∀ v, dGet mdC10 "recurrence" = some v → dGet job "recurrence" = some v) ∧
      (∀ v, dGet mdC10 "last_run" = some v → dGet job "last_run" = some v) ∧
      dGet job "results" = some (JVal.obj initResults)) :=
  ⟨by decide, C10_metadata_overrides [] mdC10 "JOB-F" "t0" (by decide)⟩

/-- C8, counterexample: the claim says `update_job_status` "sets error when
given", but the code guards with Python truthiness (`if error:`) — an
explicitly given empty-string error is **not** stored: after the update the
record still has no `error` field. -/
theorem C8_counterexample :
    (some "" ≠ (none : Option String)) ∧
    errorOf (update_job_status s8store "JOB-8" "FAILED" none (some "") "t1") "JOB-8"
      = none := by
  refine ⟨by simp, ?_⟩
  rfl

/-- C8 (amended): for an unknown id, `update_job_status` leaves the store
unchanged (logged warning).  For a present id it sets `status`, bumps
`updated_at`, sets `error` when a **non-empty** error is given, merges the
effective results patch key-wise (a patch key wins, any other key keeps its
old value — so `results` only grows), leaves every other field of the job
and every other job unchanged. -/
theorem C8_update_status_semantics :
    (∀ (store : Store) (job_id st : String) (r : Option JDict) (e : Option String)
        (now : String),
      dGet store job_id = none →
      update_job_status store job_id st r e now = store)
    ∧
    (∀ (store : Store) (job_id st : String) (r : Option JDict) (e : Option String)
        (now : String) (job : JDict),
      dGet store job_id = some job →
      (dKeys (effPatch r)).Nodup →
      dGet (update_job_status store job_id st r e now) job_id
          = some (applyStatusUpdate job st r e now)
        ∧ (∀ id2, id2 ≠ job_id →
            dGet (update_job_status store job_id st r e now) id2 = dGet store id2)
        ∧ dGet (applyStatusUpdate job st r e now) "status" = some (JVal.str st)
        ∧ dGet (applyStatusUpdate job st r e now) "updated_at" = some (JVal.str now)
        ∧ (∀ s, e = some s → s.isEmpty = false →
            dGet (applyStatusUpdate job st r e now) "error" = some (JVal.str s))
        ∧ (∀ k, k ≠ "status" → k ≠ "results" → k ≠ "error" → k ≠ "updated_at" →
            dGet (applyStatusUpdate job st r e now) k = dGet job k)
        ∧ (∀ k, dGet (resultsOf (applyStatusUpdate job st r e now)) k =
            match dGet (effPatch r) k with
            | some v => some v
            | none => dGet (resultsOf job) k)) := by
  constructor
  · intro store job_id st r e now h
    exact update_job_status_notFound store job_id st r e now h
  · intro store job_id st r e now job h hnd
    rw [update_job_status_found store job_id st r e now job h]
    refine ⟨dGet_dInsert_self _ _ _, ?_, dGet_applyStatusUpdate_status job st r e now,
      dGet_applyStatusUpdate_updated job st r e now, ?_, ?_, ?_⟩
    · intro id2 hid
      exact dGet_dInsert_ne _ _ _ _ hid
    · intro s hes hse
      subst hes
      exact dGet_applyStatusUpdate_error job st r s now hse
    · intro k h1 h2 h3 h4
      exact dGet_applyStatusUpdate_frame job st r e now k h1 h2 h3 h4
    · intro k
      rw [resultsOf_applyStatusUpdate]
      cases hpk : dGet (effPatch r) k with
      | some v => simpa using dGet_dUpdate_of_get (resultsOf job) (effPatch r) k v hnd hpk
      | none =>
        simpa using dGet_dUpdate_not_mem (resultsOf job) (effPatch r) k
          ((dGet_eq_none_iff _ _).mp hpk)

/-- C8, witness: a `COMPLETED` update with a one-key patch and a non-empty
error on the job `JOB-8`. -/
theorem C8_witness :
    dGet s8store "JOB-8" = some j8 ∧
    (dKeys (effPatch (some [("pdf_report", JVal.str "r.pdf")]))).Nodup ∧
    dGet (update_job_status s8store "JOB-8" "COMPLETED"
        (some [("pdf_report", JVal.str "r.pdf")]) (some "boom") "t1") "JOB-8"
      = some (applyStatusUpdate j8 "COMPLETED"
          (some [("pdf_report", JVal.str "r.pdf")]) (some "boom") "t1") ∧
    dGet (applyStatusUpdate j8 "COMPLETED" (some [("pdf_report", JVal.str "r.pdf")])
        (some "boom") "t1") "status" = some (JVal.str "COMPLETED") := by
  have h := C8_update_status_semantics.2 s8store "JOB-8" "COMPLETED"
    (some [("pdf_report", JVal.str "r.pdf")]) (some "boom") "t1" j8 rfl (by decide)
  exact ⟨rfl, by decide, h.1, h.2.2.1⟩

theorem missionBodyCalls_shape (job : Option JDict) (sensor : String) (env : MissionEnv)
    (rp : String) :
    ∃ c : StatusCall, missionBodyCalls job sensor env rp = [c] ∧
      (c.status = "COMPLETED" ∨ c.status = "FAILED") := by
  unfold missionBodyCalls
  dsimp only
  repeat' split
  all_goals
    first
      | exact ⟨_, rfl, Or.inr rfl⟩
      | exact ⟨_, rfl, Or.inl rfl⟩

/-- C2, counterexample: `update_job_status` enforces no transition
discipline — the operation sequence create, RUNNING, COMPLETED, PENDING is
accepted and drives the job back to PENDING out of the terminal COMPLETED
state, so over arbitrary Job Store operation sequences the claimed invariant
is false. -/
theorem C2_counterexample :
    jobStatusSeq [] "JOB-2" c2ops = ["PENDING", "RUNNING", "COMPLETED", "PENDING"] ∧
    protocolOk (jobStatusSeq [] "JOB-2" c2ops) = false :=
  ⟨rfl, rfl⟩

/-- C2 (amended): the Job Store itself validates nothing, but the status
writes actually issued for a job follow the protocol: creation writes
PENDING, and every `process_mission_task` run writes RUNNING and then exactly
one terminal status (COMPLETED or FAILED), so the executor-driven status
sequence PENDING → RUNNING → terminal never re-enters PENDING or RUNNING
from a terminal state. -/
theorem C2_executor_protocol :
    ∀ (job : Option JDict) (sensor : String) (env : MissionEnv) (rp : String),
      protocolOk ("PENDING" :: (missionCalls job sensor env rp).map StatusCall.status)
        = true := by
  intro job sensor env rp
  obtain ⟨c, hc, hst⟩ := missionBodyCalls_shape job sensor env rp
  rw [missionCalls, hc]
  rcases hst with h | h <;>
    simp [protocolOk, protocolOkFrom, specAllowed, h]

/-- C1, counterexample: a run that reaches the report step with non-empty
processed artifacts and whose reporting collaborator raises ends FAILED, not
COMPLETED — the report step has no protective `try`, so the exception falls
through to the outer handler. -/
theorem C1_counterexample :
    statusOf (process_mission_task s1store "JOB-1" "OPTICAL" env1 "t1") "JOB-1"
      = some "FAILED" ∧
    statusOf (process_mission_task s1store "JOB-1" "OPTICAL" env1 "t1") "JOB-1"
      ≠ some "COMPLETED" ∧
    errorOf (process_mission_task s1store "JOB-1" "OPTICAL" env1 "t1") "JOB-1"
      = some (JVal.str "pdf generation failed") :=
  ⟨rfl, by decide, rfl⟩

/-- C1 (amended): when a mission reaches the report step with non-empty
processed artifacts and the reporting collaborator raises, the exception is
**not** absorbed: the outer handler sets the job to FAILED with the
exception message as its error — the job does not complete. -/
theorem C1_report_failure_fails_job :
    ∀ (store : Store) (job : JDict) (job_id : String) (env : MissionEnv)
      (raw w p : List String) (e now : String),
      dGet store job_id = some job →
      dGet job "parent_job_id" = none →
      env.download = Except.ok raw →
      env.weather = Except.ok w →
      (raw ++ w).isEmpty = false →
      env.processed = Except.ok p →
      p.isEmpty = false →
      env.report = Except.error e →
      e.isEmpty = false →
      statusOf (process_mission_task store job_id "OPTICAL" env now) job_id
          = some "FAILED" ∧
      errorOf (process_mission_task store job_id "OPTICAL" env now) job_id
          = some (JVal.str e) := by
  intro store job job_id env raw w p e now hjob hpar hdl hw hraw hp hpne hrep hene
  have hstore1 : update_job_status store job_id "RUNNING" none none now
      = dInsert store job_id (applyStatusUpdate job "RUNNING" none none now) :=
    update_job_status_found store job_id "RUNNING" none none now job hjob
  have hpar1 : dGet (applyStatusUpdate job "RUNNING" none none now) "parent_job_id"
      = none := by
    rw [dGet_applyStatusUpdate_frame job "RUNNING" none none now "parent_job_id"
      (by decide) (by decide) (by decide) (by decide)]
    exact hpar
  have hpt : parentTruthy (applyStatusUpdate job "RUNNING" none none now) = false := by
    rw [parentTruthy, hpar1]
  have hcalls : missionBodyCalls (some (applyStatusUpdate job "RUNNING" none none now))
      "OPTICAL" env (reportPathFor job_id) = [⟨"FAILED", none, some e⟩] := by
    unfold missionBodyCalls
    simp [hdl, hw, hraw, hp, hpne, hpt, hrep]
  have hj1get : dGet (dInsert store job_id (applyStatusUpdate job "RUNNING" none none now))
      job_id = some (applyStatusUpdate job "RUNNING" none none now) :=
    dGet_dInsert_self _ _ _
  have hpm : process_mission_task store job_id "OPTICAL" env now
      = update_job_status (dInsert store job_id (applyStatusUpdate job "RUNNING" none none now))
          job_id "FAILED" none (some e) now := by
    unfold process_mission_task
    rw [hstore1]
    dsimp only [get_job]
    rw [hj1get, hcalls]
    rfl
  rw [hpm, update_job_status_found _ _ _ _ _ _ _ hj1get]
  constructor
  · rw [statusOf, dGet_dInsert_self]
    dsimp only
    rw [dGet_applyStatusUpdate_status]
  · rw [errorOf, dGet_dInsert_self]
    show dGet (applyStatusUpdate (applyStatusUpdate job "RUNNING" none none now)
      "FAILED" none (some e) now) "error" = some (JVal.str e)
    exact dGet_applyStatusUpdate_error _ _ _ _ _ hene

/-- C1, witness: the concrete run of the counterexample, through the amended
theorem. -/
theorem C1_witness :
    dGet s1store "JOB-1" = some j1c ∧
    dGet j1c "parent_job_id" = none ∧
    env1.download = Except.ok ["raw.tif"] ∧
    env1.weather = Except.ok [] ∧
    ((["raw.tif"] : List String) ++ []).isEmpty = false ∧
    env1.processed = Except.ok ["x_NDVI_analysis.tif"] ∧
    (["x_NDVI_analysis.tif"] : List String).isEmpty = false ∧
    env1.report = Except.error "pdf generation failed" ∧
    "pdf generation failed".isEmpty = false ∧
    (statusOf (process_mission_task s1store "JOB-1" "OPTICAL" env1 "t1") "JOB-1"
        = some "FAILED" ∧
     errorOf (process_mission_task s1store "JOB-1" "OPTICAL" env1 "t1") "JOB-1"
        = some (JVal.str "pdf generation failed")) :=
  ⟨rfl, rfl, rfl, rfl, rfl, rfl, rfl, rfl, rfl,
   C1_report_failure_fails_job s1store j1c "JOB-1" env1 ["raw.tif"] []
     ["x_NDVI_analysis.tif"] "pdf generation failed" "t1"
     rfl rfl rfl rfl rfl rfl rfl rfl rfl⟩

theorem runningCount_replicate (N : Nat) :
    runningCount (List.replicate N TaskPhase.waiting) = 0 := by
  induction N with
  | zero => rfl
  | succ n ih =>
    rw [List.replicate_succ, runningCount, List.countP_cons]
    rw [runningCount] at ih
    simp [ih]

theorem runningCount_set (s : List TaskPhase) (i : Nat) (v w : TaskPhase)
    (h : s.get? i = some w) :
    runningCount (s.set i v) + (if w == TaskPhase.running then 1 else 0)
      = runningCount s + (if v == TaskPhase.running then 1 else 0) := by
  induction s generalizing i with
  | nil => simp at h
  | cons a t ih =>
    cases i with
    | zero =>
      simp only [List.get?] at h
      injection h with h
      subst h
      cases v <;> cases a <;>
        simp [List.set, runningCount, List.countP_cons]
    | succ n =>
      simp only [List.get?] at h
      have hrec := ih n h
      simp only [List.set, runningCount, List.countP_cons] at hrec ⊢
      cases hw : (w == TaskPhase.running) <;> cases hv : (v == TaskPhase.running) <;>
        cases ha : (a == TaskPhase.running) <;>
        simp [hw, hv, ha] at hrec ⊢ <;> omega

theorem batchReachable_invariant (K N : Nat) (s : List TaskPhase)
    (h : BatchReachable K N s) : runningCount s ≤ K ∧ s.length = N := by
  induction h with
  | refl =>
    constructor
    · rw [runningCount_replicate]
      exact Nat.zero_le K
    · exact List.length_replicate _ _
  | tail hab hbc ih =>
    obtain ⟨ih1, ih2⟩ := ih
    cases hbc with
    | start i hw hc =>
      have hrs := runningCount_set _ i TaskPhase.running TaskPhase.waiting hw
      simp at hrs
      constructor
      · omega
      · rw [List.length_set]
        exact ih2
    | finish i hr =>
      have hrs := runningCount_set _ i TaskPhase.done TaskPhase.running hr
      simp at hrs
      constructor
      · omega
      · rw [List.length_set]
        exact ih2

theorem batchTerminal_all_done (K : Nat) (hK : 0 < K) (s : List TaskPhase)
    (ht : BatchTerminal K s) : ∀ x ∈ s, x = TaskPhase.done := by
  intro x hx
  cases x with
  | done => rfl
  | running =>
    exfalso
    obtain ⟨i, hi⟩ := List.get?_of_mem hx
    exact ht _ (BatchStep.finish s i hi)
  | waiting =>
    exfalso
    obtain ⟨i, hi⟩ := List.get?_of_mem hx
    by_cases hc : runningCount s < K
    · exact ht _ (BatchStep.start s i hi hc)
    · push_neg at hc
      have hpos : 0 < runningCount s := lt_of_lt_of_le hK hc
      rw [runningCount, List.countP_pos_iff] at hpos
      obtain ⟨y, hy, hyr⟩ := hpos
      have hyeq : y = TaskPhase.running := by
        cases y <;> simp_all
      subst hyeq
      obtain ⟨j, hj⟩ := List.get?_of_mem hy
      exact ht _ (BatchStep.finish s j hj)

/-- C9: in the interleaving semantics of `run_grid_mission`'s
`asyncio.Semaphore(5)`, every reachable configuration of the N mission tasks
has at most 5 simultaneously inside `execute_mission` (and still tracks all
N tasks); and whenever no further step is possible, every one of the N
missions has entered and finished — all missions eventually run. -/
theorem C9_bounded_concurrency :
    ∀ (N : Nat) (s : List TaskPhase),
      BatchReachable 5 N s →
      runningCount s ≤ 5 ∧ s.length = N ∧
        (BatchTerminal 5 s → ∀ x ∈ s, x = TaskPhase.done) := by
  intro N s h
  obtain ⟨h1, h2⟩ := batchReachable_invariant 5 N s h
  exact ⟨h1, h2, fun ht => batchTerminal_all_done 5 (by decide) s ht⟩

/-- C9, witness: two missions, the first having entered `execute_mission`. -/
theorem C9_witness :
    BatchReachable 5 2 [TaskPhase.running, TaskPhase.waiting] ∧
    (runningCount [TaskPhase.running, TaskPhase.waiting] ≤ 5 ∧
     ([TaskPhase.running, TaskPhase.waiting] : List TaskPhase).length = 2 ∧
     (BatchTerminal 5 [TaskPhase.running, TaskPhase.waiting] →
       ∀ x ∈ ([TaskPhase.running, TaskPhase.waiting] : List TaskPhase),
         x = TaskPhase.done)) := by
  have hstep : BatchStep 5 (List.replicate 2 TaskPhase.waiting)
      [TaskPhase.running, TaskPhase.waiting] := by
    have heq : (List.replicate 2 TaskPhase.waiting).set 0 TaskPhase.running
        = [TaskPhase.running, TaskPhase.waiting] := rfl
    rw [← heq]
    exact BatchStep.start (List.replicate 2 TaskPhase.waiting) 0 rfl (by decide)
  have hr : BatchReachable 5 2 [TaskPhase.running, TaskPhase.waiting] :=
    Relation.ReflTransGen.single hstep
  exact ⟨hr, C9_bounded_concurrency 2 _ hr⟩

end AIScout
